import Mathlib

/-!
Verification development for the option-quote parser `parse_quotes_smo.py`.

The Python source is shallowly embedded below:
* Python strings are Lean `String`s; `str.translate` / `str.split` /
  `str.replace` / `str.strip` are re-implemented with Python semantics.
* The regular expressions of the source are embedded as linear lists of
  atoms with full backtracking.  Every pattern in the source is anchored
  with `^` (so `re.search` coincides with a match at position 0), no
  named group is nested inside another, and every repetition operator in
  the source patterns ranges over a single character class — the `Atom`
  language below covers exactly that fragment, with Python's greedy /
  lazy backtracking order.
* `datetime.strptime` / `strftime` are embedded for the four fixed
  formats used by the source.
* Fallible Python operations (dict lookup, list indexing, tuple
  unpacking of `split('/')`, `strptime`, attribute access on fields that
  may not have been assigned yet) return `Except String`.
* The pandas step `transform_data` is embedded over `List Record` with
  `Option ℚ` as the numeric-or-NaN column type (`pd.to_numeric(errors=
  'coerce')` maps unparsable text to `none`).
-/

/-! ## Python string primitives -/

/-- ASCII digit, Python `\d` on the ASCII data handled here. -/
def isDigitChar (c : Char) : Bool := c.isDigit

/-- Python `\w`: letters, digits and underscore. -/
def isWordChar (c : Char) : Bool := c.isAlphanum || c == '_'

/-- Python `\s` / `str.split()` whitespace (incl. the NBSP that the ZZZ
strategy translates away). -/
def isPySpace (c : Char) : Bool :=
  c == ' ' || c == '\t' || c == '\n' || c == '\r' ||
  c == '\x0b' || c == '\x0c' || c == '\xa0'

/-- Python regex `.`: any character except newline. -/
def isAnyChar (c : Char) : Bool := c != '\n'

/-- Python `\S`. -/
def isNonSpace (c : Char) : Bool := !(isPySpace c)

/-- Literal space, for the `\ ` escapes and plain spaces in the patterns. -/
def isSpaceLit (c : Char) : Bool := c == ' '

/-- Character class `[-+]` in the header timezone group. -/
def isSignChar (c : Char) : Bool := c == '-' || c == '+'

/-- Character class `[.]`. -/
def isDotChar (c : Char) : Bool := c == '.'

/-- Python `str.translate` with a table mapping each char to a
replacement or to deletion (`str.maketrans({c : ''})`). -/
def pyTranslate (table : Char → Option Char) (s : String) : String :=
  String.mk (s.toList.filterMap table)

/-- Split a character list at every separator char, keeping empty
pieces (the semantics of Python `str.split(sep)` for a one-char `sep`). -/
def splitChars (p : Char → Bool) : List Char → List Char → List (List Char)
  | [], acc => [acc.reverse]
  | c :: cs, acc =>
    if p c then acc.reverse :: splitChars p cs []
    else splitChars p cs (c :: acc)

/-- Python `str.split()` with no argument: split on whitespace runs,
dropping empty pieces. -/
def pySplit (s : String) : List String :=
  ((splitChars isPySpace s.toList []).map String.mk).filter (fun t => t ≠ "")

/-- Python `str.strip()`: remove leading and trailing whitespace. -/
def pyStrip (s : String) : String :=
  String.mk (((s.toList.dropWhile isPySpace).reverse.dropWhile isPySpace).reverse)

/-- Python `str.replace(old, new)`: replace non-overlapping occurrences
left to right.  The fuel argument (instantiated with the input length)
only serves structural termination; one character is consumed per step. -/
def replaceFuel (pat rep : List Char) : Nat → List Char → List Char
  | 0, s => s
  | _, [] => []
  | n + 1, c :: cs =>
    if pat.isPrefixOf (c :: cs) then
      rep ++ replaceFuel pat rep n ((c :: cs).drop pat.length)
    else c :: replaceFuel pat rep n cs

/-- Python `str.replace(old, new)` for nonempty `old`. -/
def pyReplace (s pat rep : String) : String :=
  String.mk (replaceFuel pat.toList rep.toList s.toList.length s.toList)

/-- Python tuple unpacking `a, b = s.split('/')`: succeeds only when the
split yields exactly two pieces (`ValueError` otherwise). -/
def split2 (s : String) : Except String (String × String) :=
  match (splitChars (fun c => c == '/') s.toList []).map String.mk with
  | [a, b] => .ok (a, b)
  | _ => .error "ValueError: split did not yield exactly two values"

/-! ## Dates: the strptime/strftime formats used by the source -/

/-- A calendar date as `strptime` produces it. -/
structure PDate where
  day : Nat
  month : Nat
  year : Nat
deriving DecidableEq, Repr

/-- Abbreviated month names as emitted by `strftime('%b')`. -/
def monthNames : List String :=
  ["Jan", "Feb", "Mar", "Apr", "May", "Jun",
   "Jul", "Aug", "Sep", "Oct", "Nov", "Dec"]

/-- Lower-casing characterwise (Python's case-insensitive `%b` match on
the ASCII month names). -/
def lowerStr (s : String) : String := String.mk (s.toList.map Char.toLower)

/-- `strptime('%b')`: case-insensitive abbreviated month name. -/
def parseMonthAbbrev (s : String) : Option Nat :=
  match monthNames.findIdx? (fun m => lowerStr m == lowerStr s) with
  | some i => some (i + 1)
  | none => none

/-- Python's `%y` pivot: 00-68 → 2000s, 69-99 → 1900s. -/
def yearFrom2 (n : Nat) : Nat := if n ≤ 68 then 2000 + n else 1900 + n

/-- Days in a month, Gregorian rules (what `strptime` validates against). -/
def daysInMonth (m y : Nat) : Nat :=
  if m = 2 then
    (if y % 4 = 0 && (y % 100 ≠ 0 || y % 400 = 0) then 29 else 28)
  else if m = 4 || m = 6 || m = 9 || m = 11 then 30
  else 31

/-- `strptime` range validation for a day-month-year triple. -/
def validDate (d m y : Nat) : Bool :=
  1 ≤ m && m ≤ 12 && 1 ≤ d && d ≤ daysInMonth m y

def digitVal (c : Char) : Nat := c.toNat - '0'.toNat

/-- Two ASCII digits to a number, else `none`. -/
def parse2Digits (a b : Char) : Option Nat :=
  if isDigitChar a && isDigitChar b then some (digitVal a * 10 + digitVal b)
  else none

def parse4Digits (a b c d : Char) : Option Nat :=
  if isDigitChar a && isDigitChar b && isDigitChar c && isDigitChar d then
    some (digitVal a * 1000 + digitVal b * 100 + digitVal c * 10 + digitVal d)
  else none

def mkDate (d m y : Nat) : Option PDate :=
  if validDate d m y then some ⟨d, m, y⟩ else none

/-- `strptime(s, '%m/%d/%y')` on the `dd/dd/dd` shape guaranteed by the
header capture group. -/
def parseHeaderDate (s : String) : Option PDate :=
  match s.toList with
  | [m1, m2, '/', d1, d2, '/', y1, y2] => do
    let m ← parse2Digits m1 m2
    let d ← parse2Digits d1 d2
    let y ← parse2Digits y1 y2
    mkDate d m (yearFrom2 y)
  | _ => none

/-- The three expiry input formats of the four strategies. -/
inductive DateFmt where
  | ddMonYY        -- '%d%b%y'   (XXX)
  | ddDashMonDashYYYY  -- '%d-%b-%Y' (YYY)
  | ddDashMonDashYY    -- '%d-%b-%y' (ZZZ, WWW)
deriving DecidableEq, Repr

/-- `strptime` for the expiry formats, on the shapes guaranteed by the
corresponding capture groups. -/
def parseWith (f : DateFmt) (s : String) : Option PDate :=
  match f, s.toList with
  | .ddMonYY, [d1, d2, a, b, c, y1, y2] => do
    let d ← parse2Digits d1 d2
    let m ← parseMonthAbbrev (String.mk [a, b, c])
    let y ← parse2Digits y1 y2
    mkDate d m (yearFrom2 y)
  | .ddDashMonDashYYYY, [d1, d2, '-', a, b, c, '-', y1, y2, y3, y4] => do
    let d ← parse2Digits d1 d2
    let m ← parseMonthAbbrev (String.mk [a, b, c])
    let y ← parse4Digits y1 y2 y3 y4
    mkDate d m y
  | .ddDashMonDashYY, [d1, d2, '-', a, b, c, '-', y1, y2] => do
    let d ← parse2Digits d1 d2
    let m ← parseMonthAbbrev (String.mk [a, b, c])
    let y ← parse2Digits y1 y2
    mkDate d m (yearFrom2 y)
  | _, _ => none

def pad2 (n : Nat) : String :=
  if n < 10 then "0" ++ toString n else toString n

/-- `strftime('%d-%b-%y')`, the single canonical output date format. -/
def formatDDMonYY (d : PDate) : String :=
  pad2 d.day ++ "-" ++ (monthNames.getD (d.month - 1) "") ++ "-" ++ pad2 (d.year % 100)

/-! ## Regex engine

Linear patterns of atoms; repetitions range over one character class.
Greedy operators try the longest take first, lazy ones the shortest, with
full backtracking into the remaining atoms — Python's order for this
pattern fragment.  Named groups never nest in the source patterns, so one
optional open group suffices. -/

inductive Atom where
  | lit (c : Char)
  | cls (p : Char → Bool)
  | many (p : Char → Bool)      -- greedy `*`
  | many1 (p : Char → Bool)     -- greedy `+`
  | manyLazy (p : Char → Bool)  -- lazy `*?`
  | opt (p : Char → Bool)       -- greedy `?`
  | openG (name : String)
  | closeG

/-- Captured named groups in order of appearance. -/
abbrev Caps := List (String × String)

/-- Matcher state: the currently open capture group and finished groups. -/
structure GState where
  openGroup : Option (String × List Char)
  caps : Caps

def addChars (g : GState) (cs : List Char) : GState :=
  match g.openGroup with
  | none => g
  | some (n, buf) => { g with openGroup := some (n, buf ++ cs) }

/-- Match a list of atoms at the head of the input; success does not
require consuming all input (search semantics need only a match). -/
def matchAtoms : List Atom → List Char → GState → Option Caps
  | [], _, g => some g.caps
  | .lit c :: rest, s, g =>
    match s with
    | [] => none
    | x :: xs => if x = c then matchAtoms rest xs (addChars g [x]) else none
  | .cls p :: rest, s, g =>
    match s with
    | [] => none
    | x :: xs => if p x then matchAtoms rest xs (addChars g [x]) else none
  | .opt p :: rest, s, g =>
    (match s with
     | x :: xs =>
       if p x then matchAtoms rest xs (addChars g [x]) else none
     | [] => none).orElse (fun _ => matchAtoms rest s g)
  | .many p :: rest, s, g =>
    let run := (s.takeWhile p).length
    (List.range (run + 1)).reverse.findSome? fun k =>
      matchAtoms rest (s.drop k) (addChars g (s.take k))
  | .many1 p :: rest, s, g =>
    let run := (s.takeWhile p).length
    ((List.range run).map (· + 1)).reverse.findSome? fun k =>
      matchAtoms rest (s.drop k) (addChars g (s.take k))
  | .manyLazy p :: rest, s, g =>
    let run := (s.takeWhile p).length
    (List.range (run + 1)).findSome? fun k =>
      matchAtoms rest (s.drop k) (addChars g (s.take k))
  | .openG n :: rest, s, g => matchAtoms rest s { g with openGroup := some (n, []) }
  | .closeG :: rest, s, g =>
    match g.openGroup with
    | some (n, buf) =>
      matchAtoms rest s { openGroup := none, caps := g.caps ++ [(n, String.mk buf)] }
    | none => none

/-- A compiled pattern: ordered alternatives (only the WWW `table_row`
pattern has more than one), each anchored at the start of the line. -/
structure Pattern where
  alts : List (List Atom)

/-- `re.search` for the source's patterns: every pattern is `^`-anchored,
so searching reduces to matching at position 0, alternatives in order. -/
def Pattern.search (p : Pattern) (line : String) : Option Caps :=
  p.alts.findSome? fun atoms => matchAtoms atoms line.toList ⟨none, []⟩

/-- Named groups of an atom list in definition order (`match.groupdict()`
key order). -/
def atomGroups : List Atom → List String
  | [] => []
  | .openG n :: rest => n :: atomGroups rest
  | _ :: rest => atomGroups rest

/-- Named groups of a pattern in definition order. -/
def Pattern.groupNames (p : Pattern) : List String :=
  (p.alts.map atomGroups).flatten

/-- Convenience: string literal as a run of `lit` atoms. -/
def lits (s : String) : List Atom := s.toList.map Atom.lit

/-- Convenience: a named group over sub-atoms. -/
def grp (n : String) (as : List Atom) : List Atom :=
  Atom.openG n :: as ++ [Atom.closeG]

/-! ## The source's regex patterns -/

/-- Common header regex (`ParsingStrategy.get_header_rx_dict`):
`^From: (?P<firm_sender>\w+) At: (?P<date>\d{2}\/\d{2}\/\d{2}) (?P<time>\d{2}\:\d{2}\:\d{2}) (\w{3}[-+]\d?\d\:\d\d)`. -/
def headerPattern : Pattern :=
  ⟨[lits "From: " ++ grp "firm_sender" [.many1 isWordChar] ++ lits " At: " ++
    grp "date" [.cls isDigitChar, .cls isDigitChar, .lit '/', .cls isDigitChar,
                .cls isDigitChar, .lit '/', .cls isDigitChar, .cls isDigitChar] ++
    [Atom.lit ' '] ++
    grp "time" [.cls isDigitChar, .cls isDigitChar, .lit ':', .cls isDigitChar,
                .cls isDigitChar, .lit ':', .cls isDigitChar, .cls isDigitChar] ++
    [Atom.lit ' ', .cls isWordChar, .cls isWordChar, .cls isWordChar, .cls isSignChar,
     .opt isDigitChar, .cls isDigitChar, .lit ':', .cls isDigitChar, .cls isDigitChar]]⟩

/-- Subject regex shared verbatim by the XXX, YYY and WWW strategies:
`^\Subject: .*?\w+ (?P<ref_px>[\d]+.[\d]+)` (note `\S` then `ubject: `). -/
def subjectPattern : Pattern :=
  ⟨[[Atom.cls isNonSpace] ++ lits "ubject: " ++
    [Atom.manyLazy isAnyChar, .many1 isWordChar, .lit ' '] ++
    grp "ref_px" [.many1 isDigitChar, .cls isAnyChar, .many1 isDigitChar]]⟩

/-- XXX `table_expiry`: `^Expiry (?P<expiration_date>\d{2}\w{3}\d{2})`. -/
def xxxExpiryPattern : Pattern :=
  ⟨[lits "Expiry " ++
    grp "expiration_date" [.cls isDigitChar, .cls isDigitChar, .cls isWordChar,
                           .cls isWordChar, .cls isWordChar, .cls isDigitChar,
                           .cls isDigitChar]]⟩

/-- XXX `table_header`:
`^(?P<strike_px>\w+)\ +(?P<strike_spd>\w+)\ +\|\ +(?P<p_price>\w+)\ +(?P<delta>\w+)\ +(?P<c_price>\w+)\ +(?P<iv_spd>\w+) +(?P<vol_chg>\w+\ \w+)\ +(?P<iv_bps>\w+\ \w+)\ +(?P<tail>\w+)`. -/
def xxxTableHeaderPattern : Pattern :=
  ⟨[grp "strike_px" [.many1 isWordChar] ++ [Atom.many1 isSpaceLit] ++
    grp "strike_spd" [.many1 isWordChar] ++ [Atom.many1 isSpaceLit, .lit '|', .many1 isSpaceLit] ++
    grp "p_price" [.many1 isWordChar] ++ [Atom.many1 isSpaceLit] ++
    grp "delta" [.many1 isWordChar] ++ [Atom.many1 isSpaceLit] ++
    grp "c_price" [.many1 isWordChar] ++ [Atom.many1 isSpaceLit] ++
    grp "iv_spd" [.many1 isWordChar] ++ [Atom.many1 isSpaceLit] ++
    grp "vol_chg" [.many1 isWordChar, .lit ' ', .many1 isWordChar] ++ [Atom.many1 isSpaceLit] ++
    grp "iv_bps" [.many1 isWordChar, .lit ' ', .many1 isWordChar] ++ [Atom.many1 isSpaceLit] ++
    grp "tail" [.many1 isWordChar]]⟩

/-- XXX `table_row`: `^\ *\d+.\d+`. -/
def xxxTableRowPattern : Pattern :=
  ⟨[[Atom.many isSpaceLit, .many1 isDigitChar, .cls isAnyChar, .many1 isDigitChar]]⟩

/-- YYY `table_expiry`: `^EXPIRY\: (?P<expiration_date>\d{2}\-\w{3}\-\d{4})`. -/
def yyyExpiryPattern : Pattern :=
  ⟨[lits "EXPIRY: " ++
    grp "expiration_date" [.cls isDigitChar, .cls isDigitChar, .lit '-', .cls isWordChar,
                           .cls isWordChar, .cls isWordChar, .lit '-', .cls isDigitChar,
                           .cls isDigitChar, .cls isDigitChar, .cls isDigitChar]]⟩

/-- YYY `table_header`:
`^\ *(?P<strike_px>\w) +\[.(?P<strike_spd>\w+)\]\ +\|(?P<p_bid_price>\w+)\>(?P<p_ask_price>\w+)\ +(?P<p_delta>\w+) +\|(?P<c_bid_price>\w+)\>(?P<c_ask_price>\w+)\ +(?P<c_delta>\w+) +\|(?P<mid_vol>\w+)\ +\[(?P<iv_spd>\w+)\]\ +(?P<chg>\w+)\ +(?P<iv_bps>.+)`. -/
def yyyTableHeaderPattern : Pattern :=
  ⟨[[Atom.many isSpaceLit] ++ grp "strike_px" [.cls isWordChar] ++
    [Atom.many1 isSpaceLit, .lit '[', .cls isAnyChar] ++
    grp "strike_spd" [.many1 isWordChar] ++ [Atom.lit ']', .many1 isSpaceLit, .lit '|'] ++
    grp "p_bid_price" [.many1 isWordChar] ++ [Atom.lit '>'] ++
    grp "p_ask_price" [.many1 isWordChar] ++ [Atom.many1 isSpaceLit] ++
    grp "p_delta" [.many1 isWordChar] ++ [Atom.many1 isSpaceLit, .lit '|'] ++
    grp "c_bid_price" [.many1 isWordChar] ++ [Atom.lit '>'] ++
    grp "c_ask_price" [.many1 isWordChar] ++ [Atom.many1 isSpaceLit] ++
    grp "c_delta" [.many1 isWordChar] ++ [Atom.many1 isSpaceLit, .lit '|'] ++
    grp "mid_vol" [.many1 isWordChar] ++ [Atom.many1 isSpaceLit, .lit '['] ++
    grp "iv_spd" [.many1 isWordChar] ++ [Atom.lit ']', .many1 isSpaceLit] ++
    grp "chg" [.many1 isWordChar] ++ [Atom.many1 isSpaceLit] ++
    grp "iv_bps" [.many1 isAnyChar]]⟩

/-- YYY `table_row`: `^\ *\d+.\d+` (same text as the XXX row pattern). -/
def yyyTableRowPattern : Pattern := xxxTableRowPattern

/-- ZZZ `table_expiry`:
`^Exp\: (?P<expiration_date>\d{2}\-\w{3}\-\d{2}) .*?\w+ \w+\: (?P<ref_px>[\d]+.[\d]+)`. -/
def zzzExpiryPattern : Pattern :=
  ⟨[lits "Exp: " ++
    grp "expiration_date" [.cls isDigitChar, .cls isDigitChar, .lit '-', .cls isWordChar,
                           .cls isWordChar, .cls isWordChar, .lit '-', .cls isDigitChar,
                           .cls isDigitChar] ++
    [Atom.lit ' ', .manyLazy isAnyChar, .many1 isWordChar, .lit ' ',
     .many1 isWordChar, .lit ':', .lit ' '] ++
    grp "ref_px" [.many1 isDigitChar, .cls isAnyChar, .many1 isDigitChar]]⟩

/-- ZZZ `table_header`:
`^\s+(?P<strike_px>\w+)\s+\|\s+(?P<p_price>\w+)\s+(?P<p_delta>\w+)\s+\|\s+(?P<c_price>\w+)\s+(?P<c_delta>\w+)\s+\|\s+(?P<iv_spd>\w+)\s+(?P<chg>\w+)\s+\|\s+(?P<iv_px>\w+\s\w+)`. -/
def zzzTableHeaderPattern : Pattern :=
  ⟨[[Atom.many1 isPySpace] ++ grp "strike_px" [.many1 isWordChar] ++
    [Atom.many1 isPySpace, .lit '|', .many1 isPySpace] ++
    grp "p_price" [.many1 isWordChar] ++ [Atom.many1 isPySpace] ++
    grp "p_delta" [.many1 isWordChar] ++ [Atom.many1 isPySpace, .lit '|', .many1 isPySpace] ++
    grp "c_price" [.many1 isWordChar] ++ [Atom.many1 isPySpace] ++
    grp "c_delta" [.many1 isWordChar] ++ [Atom.many1 isPySpace, .lit '|', .many1 isPySpace] ++
    grp "iv_spd" [.many1 isWordChar] ++ [Atom.many1 isPySpace] ++
    grp "chg" [.many1 isWordChar] ++ [Atom.many1 isPySpace, .lit '|', .many1 isPySpace] ++
    grp "iv_px" [.many1 isWordChar, .cls isPySpace, .many1 isWordChar]]⟩

/-- ZZZ `table_row`: `^\s*\d+[.]?\d*`. -/
def zzzTableRowPattern : Pattern :=
  ⟨[[Atom.many isPySpace, .many1 isDigitChar, .opt isDotChar, .many isDigitChar]]⟩

/-- WWW `table_expiry`:
`^CDX \w+\: \w+ \(\w+\) (?P<expiration_date>\d{2}\-\w{3}\-\d{2})`. -/
def wwwExpiryPattern : Pattern :=
  ⟨[lits "CDX " ++ [Atom.many1 isWordChar] ++ lits ": " ++
    [Atom.many1 isWordChar, .lit ' ', .lit '('] ++ [Atom.many1 isWordChar] ++ lits ") " ++
    grp "expiration_date" [.cls isDigitChar, .cls isDigitChar, .lit '-', .cls isWordChar,
                           .cls isWordChar, .cls isWordChar, .lit '-', .cls isDigitChar,
                           .cls isDigitChar]]⟩

/-- WWW `table_header`:
`^\ +(?P<c_strike_px>\w+)\ +\|\ +(?P<c_price>\w+)\ +(?P<c_delta>\w+)\ +(?P<c_iv_spd>\w+)\ +(?P<c_chg>\w+)\ +(?P<c_iv_bps>\w+\/\w+)\|\ +(?P<p_strike_px>\w+)\ +\|\ +(?P<p_price>\w+)\ +(?P<p_delta>\w+)\ +(?P<p_iv_spd>\w+)\ +(?P<p_chg>\w+)\ +(?P<p_iv_bps>\w+\/\w+)`. -/
def wwwTableHeaderPattern : Pattern :=
  ⟨[[Atom.many1 isSpaceLit] ++ grp "c_strike_px" [.many1 isWordChar] ++
    [Atom.many1 isSpaceLit, .lit '|', .many1 isSpaceLit] ++
    grp "c_price" [.many1 isWordChar] ++ [Atom.many1 isSpaceLit] ++
    grp "c_delta" [.many1 isWordChar] ++ [Atom.many1 isSpaceLit] ++
    grp "c_iv_spd" [.many1 isWordChar] ++ [Atom.many1 isSpaceLit] ++
    grp "c_chg" [.many1 isWordChar] ++ [Atom.many1 isSpaceLit] ++
    grp "c_iv_bps" [.many1 isWordChar, .lit '/', .many1 isWordChar] ++
    [Atom.lit '|', .many1 isSpaceLit] ++
    grp "p_strike_px" [.many1 isWordChar] ++
    [Atom.many1 isSpaceLit, .lit '|', .many1 isSpaceLit] ++
    grp "p_price" [.many1 isWordChar] ++ [Atom.many1 isSpaceLit] ++
    grp "p_delta" [.many1 isWordChar] ++ [Atom.many1 isSpaceLit] ++
    grp "p_iv_spd" [.many1 isWordChar] ++ [Atom.many1 isSpaceLit] ++
    grp "p_chg" [.many1 isWordChar] ++ [Atom.many1 isSpaceLit] ++
    grp "p_iv_bps" [.many1 isWordChar, .lit '/', .many1 isWordChar]]⟩

/-- WWW `table_row`: `^\ *\d+[.]?\d*|^\ +\-\ +` (two anchored alternatives). -/
def wwwTableRowPattern : Pattern :=
  ⟨[[Atom.many isSpaceLit, .many1 isDigitChar, .opt isDotChar, .many isDigitChar],
    [Atom.many1 isSpaceLit, .lit '-', .many1 isSpaceLit]]⟩

/-! ## Data model: ProductQuote and the emitted record -/

/-- The mutable template of `ProductQuote`.  `expire_date` and `ref_px`
are only assigned by the expiry/subject handlers; reading them before
assignment is an `AttributeError` in Python, hence `Option`. -/
structure ProductQuote where
  date : String
  time : String
  firm_sender : String
  expire_date : Option String
  ref_px : Option String
  strike_px : String
  strike_spd : String
  option_type : String
  bid_price : String
  ask_price : String
  delta : String
  iv_spd : String
  iv_bps : String
  iv_px : String
deriving DecidableEq, Repr

/-- One emitted row, fields in `ProductQuote.get_values` order. -/
structure Record where
  date : String
  time : String
  firm_sender : String
  expire_date : String
  option_type : String
  strike_px : String
  strike_spd : String
  bid_price : String
  ask_price : String
  delta : String
  iv_spd : String
  iv_bps : String
  iv_px : String
  ref_px : String
deriving DecidableEq, Repr

/-- `ProductQuote.get_values`: snapshot of the template; an
`AttributeError` when `expire_date` or `ref_px` was never assigned. -/
def ProductQuote.get_values (pq : ProductQuote) : Except String Record :=
  match pq.expire_date, pq.ref_px with
  | some e, some r =>
    .ok { date := pq.date, time := pq.time, firm_sender := pq.firm_sender,
          expire_date := e, option_type := pq.option_type,
          strike_px := pq.strike_px, strike_spd := pq.strike_spd,
          bid_price := pq.bid_price, ask_price := pq.ask_price,
          delta := pq.delta, iv_spd := pq.iv_spd, iv_bps := pq.iv_bps,
          iv_px := pq.iv_px, ref_px := r }
  | _, _ => .error "AttributeError: expire_date or ref_px not set"

/-- `ProductQuote.reset_table_row_values`. -/
def ProductQuote.reset_table_row_values (pq : ProductQuote) : ProductQuote :=
  { pq with strike_px := "", strike_spd := "", option_type := "",
            bid_price := "", ask_price := "", delta := "",
            iv_spd := "", iv_bps := "", iv_px := "" }

/-- A fresh template with the header-level fields supplied, as built by
`ParsingStrategy.on_header`. -/
def mkHeaderPQ (date time firm : String) : ProductQuote :=
  { date, time, firm_sender := firm, expire_date := none, ref_px := none,
    strike_px := "", strike_spd := "", option_type := "", bid_price := "",
    ask_price := "", delta := "", iv_spd := "", iv_bps := "", iv_px := "" }

/-- A session template in which the expiry and subject lines have
already populated `expire_date` and `ref_px`. -/
def mkSessionPQ (date time firm expire ref : String) : ProductQuote :=
  { mkHeaderPQ date time firm with expire_date := some expire, ref_px := some ref }

/-! ## The four strategies -/

inductive Sender where
  | XXX | YYY | ZZZ | WWW
deriving DecidableEq, Repr

/-- `exp_date_format` assigned in each strategy's `__init__`. -/
def exp_date_format : Sender → DateFmt
  | .XXX => .ddMonYY
  | .YYY => .ddDashMonDashYYYY
  | .ZZZ => .ddDashMonDashYY
  | .WWW => .ddDashMonDashYY

/-- `str.maketrans` tables from each strategy's `__init__`:
XXX drops `|` and `-`; YYY drops `|[]%`; ZZZ drops `|[]` and maps NBSP
to a space; WWW drops `|%`. -/
def translate_table : Sender → Char → Option Char
  | .XXX => fun c => if c = '|' ∨ c = '-' then none else some c
  | .YYY => fun c => if c = '|' ∨ c = '[' ∨ c = ']' ∨ c = '%' then none else some c
  | .ZZZ => fun c =>
      if c = '|' ∨ c = '[' ∨ c = ']' then none
      else if c = '\xa0' then some ' ' else some c
  | .WWW => fun c => if c = '|' ∨ c = '%' then none else some c

/-- Each strategy's ordered `__rx_dict` (ZZZ has no subject pattern). -/
def rx_dict : Sender → List (String × Pattern)
  | .XXX => [("subject", subjectPattern), ("table_expiry", xxxExpiryPattern),
             ("table_header", xxxTableHeaderPattern), ("table_row", xxxTableRowPattern)]
  | .YYY => [("subject", subjectPattern), ("table_expiry", yyyExpiryPattern),
             ("table_header", yyyTableHeaderPattern), ("table_row", yyyTableRowPattern)]
  | .ZZZ => [("table_expiry", zzzExpiryPattern),
             ("table_header", zzzTableHeaderPattern), ("table_row", zzzTableRowPattern)]
  | .WWW => [("subject", subjectPattern), ("table_expiry", wwwExpiryPattern),
             ("table_header", wwwTableHeaderPattern), ("table_row", wwwTableRowPattern)]

/-- `match.group(name)` on the captures of a match. -/
def capsGet (caps : Caps) (k : String) : Except String String :=
  match caps.find? (fun p => p.1 == k) with
  | some p => .ok p.2
  | none => .error ("IndexError: no such group " ++ k)

/-- Column-index map built by `on_table_header`. -/
abbrev ColIdx := List (String × Nat)

/-- `ParsingStrategy.on_table_header`: enumerate the groupdict keys. -/
def on_table_header (names : List String) : ColIdx :=
  names.enum.map (fun p => (p.2, p.1))

/-- `col_idx[k]` (KeyError) followed by `row_data[i]` (IndexError). -/
def getTok (ci : ColIdx) (row_data : List String) (k : String) : Except String String :=
  match (ci.find? (fun p => p.1 == k)).map (fun p => p.2) with
  | none => .error ("KeyError: " ++ k)
  | some i =>
    match row_data.get? i with
    | none => .error "IndexError: list index out of range"
    | some t => .ok t

/-- `ParsingStrategy.on_header` common body: fresh template with sender,
canonicalized date and raw time from the header captures. -/
def on_header (caps : Caps) : Except String ProductQuote := do
  let fs ← capsGet caps "firm_sender"
  let ds ← capsGet caps "date"
  let t ← capsGet caps "time"
  match parseHeaderDate ds with
  | none => .error "ValueError: time data does not match format"
  | some d => .ok (mkHeaderPQ (formatDDMonYY d) t fs)

/-- `ParsingStrategy.on_subject`: store `ref_px` from the subject line. -/
def on_subject (caps : Caps) (pq : ProductQuote) : Except String ProductQuote := do
  let r ← capsGet caps "ref_px"
  .ok { pq with ref_px := some r }

/-- `on_expiry`: parse the expiry with the strategy's own format, store
canonically; the ZZZ override additionally stores `ref_px` from the same
line. -/
def on_expiry (s : Sender) (caps : Caps) (pq : ProductQuote) : Except String ProductQuote := do
  let es ← capsGet caps "expiration_date"
  match parseWith (exp_date_format s) es with
  | none => .error "ValueError: time data does not match format"
  | some d =>
    let pq := { pq with expire_date := some (formatDDMonYY d) }
    match s with
    | .ZZZ => do
      let r ← capsGet caps "ref_px"
      .ok { pq with ref_px := some r }
    | _ => .ok pq

/-- `ParserForXXX.on_table_row`. -/
def ParserForXXX.on_table_row (ci : ColIdx) (pq0 : ProductQuote) (line : String) :
    Except String (List Record × ProductQuote) := do
  let row_data := pySplit (pyTranslate (translate_table .XXX) line)
  let v_strike_px ← getTok ci row_data "strike_px"
  let v_strike_spd ← getTok ci row_data "strike_spd"
  let v_delta ← getTok ci row_data "delta"
  let v_iv_spd ← getTok ci row_data "iv_spd"
  let v_iv_bps ← getTok ci row_data "iv_bps"
  let pq := { pq0 with strike_px := v_strike_px, strike_spd := v_strike_spd,
                       delta := v_delta, iv_spd := v_iv_spd, iv_bps := v_iv_bps,
                       iv_px := "" }
  let pTok ← getTok ci row_data "p_price"
  let pb ← split2 pTok
  let pq := { pq with option_type := "P", bid_price := pb.1, ask_price := pb.2 }
  let r1 ← pq.get_values
  let cTok ← getTok ci row_data "c_price"
  let cb ← split2 cTok
  let pq := { pq with option_type := "C", bid_price := cb.1, ask_price := cb.2 }
  let r2 ← pq.get_values
  .ok ([r1, r2], pq.reset_table_row_values)

/-- `ParserForYYY.on_table_row`. -/
def ParserForYYY.on_table_row (ci : ColIdx) (pq0 : ProductQuote) (line : String) :
    Except String (List Record × ProductQuote) := do
  let row_data := pySplit (pyTranslate (translate_table .YYY) line)
  let v_strike_px ← getTok ci row_data "strike_px"
  let v_strike_spd ← getTok ci row_data "strike_spd"
  let v_iv_spd ← getTok ci row_data "iv_spd"
  let v_iv_bps ← getTok ci row_data "iv_bps"
  let pq := { pq0 with strike_px := v_strike_px, strike_spd := v_strike_spd,
                       delta := "", iv_spd := v_iv_spd, iv_bps := v_iv_bps,
                       iv_px := "" }
  let v_p_bid ← getTok ci row_data "p_bid_price"
  let v_p_ask ← getTok ci row_data "p_ask_price"
  let v_p_delta ← getTok ci row_data "p_delta"
  let pq := { pq with option_type := "P", bid_price := v_p_bid,
                      ask_price := v_p_ask, delta := v_p_delta }
  let r1 ← pq.get_values
  let v_c_bid ← getTok ci row_data "c_bid_price"
  let v_c_ask ← getTok ci row_data "c_ask_price"
  let v_c_delta ← getTok ci row_data "c_delta"
  let pq := { pq with option_type := "C", bid_price := v_c_bid,
                      ask_price := v_c_ask, delta := v_c_delta }
  let r2 ← pq.get_values
  .ok ([r1, r2], pq.reset_table_row_values)

/-- `ParserForZZZ.on_table_row` (translate, collapse double spaces once,
join ` / `, strip, split). -/
def ParserForZZZ.on_table_row (ci : ColIdx) (pq0 : ProductQuote) (line : String) :
    Except String (List Record × ProductQuote) := do
  let row_data := pySplit (pyStrip
    (pyReplace (pyReplace (pyTranslate (translate_table .ZZZ) line) "  " " ") " / " "/"))
  let v_strike_px ← getTok ci row_data "strike_px"
  let v_iv_spd ← getTok ci row_data "iv_spd"
  let v_iv_px ← getTok ci row_data "iv_px"
  let pq := { pq0 with strike_px := v_strike_px, strike_spd := "", delta := "",
                       iv_spd := v_iv_spd, iv_bps := "", iv_px := v_iv_px }
  let v_p_delta ← getTok ci row_data "p_delta"
  let pTok ← getTok ci row_data "p_price"
  let pb ← split2 pTok
  let pq := { pq with option_type := "P", delta := v_p_delta,
                      bid_price := pb.1, ask_price := pb.2 }
  let r1 ← pq.get_values
  let v_c_delta ← getTok ci row_data "c_delta"
  let cTok ← getTok ci row_data "c_price"
  let cb ← split2 cTok
  let pq := { pq with option_type := "C", delta := v_c_delta,
                      bid_price := cb.1, ask_price := cb.2 }
  let r2 ← pq.get_values
  .ok ([r1, r2], pq.reset_table_row_values)

/-- `ParserForWWW.on_table_row`: the call leg is all-absent when the
call-strike token is the placeholder `-`. -/
def ParserForWWW.on_table_row (ci : ColIdx) (pq0 : ProductQuote) (line : String) :
    Except String (List Record × ProductQuote) := do
  let row_data := pySplit (pyStrip (pyTranslate (translate_table .WWW) line))
  let pq := { pq0 with strike_spd := "", iv_px := "" }
  let pTok ← getTok ci row_data "p_price"
  let pb ← split2 pTok
  let v_p_strike ← getTok ci row_data "p_strike_px"
  let v_p_delta ← getTok ci row_data "p_delta"
  let v_p_iv_spd ← getTok ci row_data "p_iv_spd"
  let v_p_iv_bps ← getTok ci row_data "p_iv_bps"
  let pq := { pq with option_type := "P", bid_price := pb.1, ask_price := pb.2,
                      strike_px := v_p_strike, delta := v_p_delta,
                      iv_spd := v_p_iv_spd, iv_bps := v_p_iv_bps }
  let r1 ← pq.get_values
  let pq := { pq with option_type := "C" }
  let v_c_strike ← getTok ci row_data "c_strike_px"
  if v_c_strike ≠ "-" then
    let cTok ← getTok ci row_data "c_price"
    let cb ← split2 cTok
    let v_c_delta ← getTok ci row_data "c_delta"
    let v_c_iv_spd ← getTok ci row_data "c_iv_spd"
    let v_c_iv_bps ← getTok ci row_data "c_iv_bps"
    let pq := { pq with bid_price := cb.1, ask_price := cb.2,
                        strike_px := v_c_strike, delta := v_c_delta,
                        iv_spd := v_c_iv_spd, iv_bps := v_c_iv_bps }
    let r2 ← pq.get_values
    .ok ([r1, r2], pq.reset_table_row_values)
  else
    let pq := { pq with bid_price := "", ask_price := "", strike_px := "",
                        delta := "", iv_spd := "", iv_bps := "" }
    let r2 ← pq.get_values
    .ok ([r1, r2], pq.reset_table_row_values)

/-- Dispatch of `on_table_row` over the bound strategy. -/
def on_table_row (s : Sender) : ColIdx → ProductQuote → String →
    Except String (List Record × ProductQuote) :=
  match s with
  | .XXX => ParserForXXX.on_table_row
  | .YYY => ParserForYYY.on_table_row
  | .ZZZ => ParserForZZZ.on_table_row
  | .WWW => ParserForWWW.on_table_row

/-! ## Line classification, grammar registry and the parse loop -/

/-- `parse_line`: first pattern of the ordered dict that matches wins;
`None` when nothing matches. -/
def parse_line (regex_dict : List (String × Pattern)) (line : String) :
    Option (String × Caps) :=
  regex_dict.findSome? fun kv => (kv.2.search line).map (fun m => (kv.1, m))

/-- The initial active set: only the common header pattern. -/
def header_rx_dict : List (String × Pattern) := [("header", headerPattern)]

/-- `get_parser`, the factory mapping a sender token to a strategy. -/
def parserFor (firm_sender : String) : Option Sender :=
  if firm_sender = "XXX" then some .XXX
  else if firm_sender = "YYY" then some .YYY
  else if firm_sender = "ZZZ" then some .ZZZ
  else if firm_sender = "WWW" then some .WWW
  else none

/-- The per-file mutable state of `parse_file`. -/
structure PState where
  strategy : Option Sender
  matched_table_header : Bool
  col_idx : ColIdx
  pq : ProductQuote
  rows : List Record
deriving Repr

def initPState : PState :=
  { strategy := none, matched_table_header := false, col_idx := [],
    pq := mkHeaderPQ "" "" "", rows := [] }

/-- The active pattern set: only the header pattern until a strategy is
bound, then the strategy's own dict. -/
def activeDict (st : PState) : List (String × Pattern) :=
  match st.strategy with
  | none => header_rx_dict
  | some s => rx_dict s

/-- Result of processing one line: continue, break out of the loop
(unknown sender), or a propagated hard error. -/
inductive StepRes where
  | cont (st : PState)
  | stop (st : PState)
  | fail (e : String)
deriving Repr

/-- One iteration of the `parse_file` loop: classify the line against
the active dict and dispatch on the matched kind (the `elif` chain). -/
def step (st : PState) (line : String) : StepRes :=
  match parse_line (activeDict st) line with
  | none => .cont st
  | some (key, caps) =>
    if key = "header" then
      match capsGet caps "firm_sender" with
      | .error e => .fail e
      | .ok tok =>
        match parserFor tok with
        | none => .stop st
        | some s =>
          match on_header caps with
          | .error e => .fail e
          | .ok pq => .cont { st with strategy := some s, pq := pq }
    else if key = "subject" then
      match st.strategy with
      | none => .fail "AttributeError: no strategy bound"
      | some _ =>
        match on_subject caps st.pq with
        | .error e => .fail e
        | .ok pq => .cont { st with pq := pq }
    else if key = "table_expiry" then
      match st.strategy with
      | none => .fail "AttributeError: no strategy bound"
      | some s =>
        match on_expiry s caps st.pq with
        | .error e => .fail e
        | .ok pq => .cont { st with pq := pq }
    else if key = "table_header" ∧ st.matched_table_header = false then
      match st.strategy with
      | none => .fail "AttributeError: no strategy bound"
      | some _ =>
        .cont { st with col_idx := on_table_header (caps.map Prod.fst),
                        matched_table_header := true }
    else if key = "table_row" then
      match st.strategy with
      | none => .fail "AttributeError: no strategy bound"
      | some s =>
        match on_table_row s st.col_idx st.pq line with
        | .error e => .fail e
        | .ok (pair, pq) => .cont { st with rows := st.rows ++ pair, pq := pq }
    else .cont st

/-- The `parse_file` loop over the remaining lines. -/
def parseFileFrom (st : PState) : List String → Except String (List Record)
  | [] => .ok st.rows
  | l :: ls =>
    match step st l with
    | .cont st' => parseFileFrom st' ls
    | .stop st' => .ok st'.rows
    | .fail e => .error e

/-- `parse_file`: collected records of one file, or the propagated
per-file hard error. -/
def parse_file (lines : List String) : Except String (List Record) :=
  parseFileFrom initPState lines

/-! ## Normalization pipeline (`transform_data`) -/

/-- `pd.to_numeric(errors='coerce')` on this data: an optionally signed
decimal literal with optional exponent parses to an exact rational,
anything else (including the empty absent marker) coerces to the missing
marker `none` (NaN). -/
def toNumeric (s : String) : Option ℚ :=
  let cs := (pyStrip s).toList
  let (sign, cs) :=
    match cs with
    | '-' :: rest => ((-1 : Int), rest)
    | '+' :: rest => ((1 : Int), rest)
    | _ => ((1 : Int), cs)
  let intPart := cs.takeWhile isDigitChar
  let cs' := cs.drop intPart.length
  let (fracPart, fracSkip) :=
    match cs' with
    | '.' :: r => (r.takeWhile isDigitChar, (r.takeWhile isDigitChar).length + 1)
    | _ => ([], 0)
  let cs'' := cs'.drop fracSkip
  let (expPart, cs3) :=
    match cs'' with
    | 'e' :: r | 'E' :: r =>
      let (es, r') :=
        match r with
        | '-' :: r2 => ((-1 : Int), r2)
        | '+' :: r2 => ((1 : Int), r2)
        | _ => ((1 : Int), r)
      let ds := r'.takeWhile isDigitChar
      if ds.isEmpty then (none, cs'')
      else (some (es * (ds.foldl (fun a c => a * 10 + digitVal c) 0 : Nat)),
            r'.drop ds.length)
    | _ => (some 0, cs'')
  if intPart.isEmpty ∧ fracPart.isEmpty then none
  else if ¬ cs3.isEmpty then none
  else
    match expPart with
    | none => none
    | some e =>
      let iv : Int := (intPart.foldl (fun a c => a * 10 + digitVal c) 0 : Nat)
      let fv : Int := (fracPart.foldl (fun a c => a * 10 + digitVal c) 0 : Nat)
      let mant : Int := iv * (10 : Int) ^ fracPart.length + fv
      if 0 ≤ e then
        some (mkRat (sign * mant * (10 : Int) ^ e.toNat) ((10 : Nat) ^ fracPart.length))
      else
        some (mkRat (sign * mant) ((10 : Nat) ^ fracPart.length * (10 : Nat) ^ (-e).toNat))

/-- A record after numeric coercion: the nine numeric columns become
numeric-or-NaN, the rest stay text. -/
structure NRecord where
  date : String
  time : String
  firm_sender : String
  expire_date : String
  option_type : String
  strike_px : Option ℚ
  strike_spd : Option ℚ
  bid_price : Option ℚ
  ask_price : Option ℚ
  delta : Option ℚ
  iv_spd : Option ℚ
  iv_bps : Option ℚ
  iv_px : Option ℚ
  ref_px : Option ℚ
deriving DecidableEq, Repr

/-- The `pd.to_numeric` block of `transform_data`. -/
def coerceRecord (r : Record) : NRecord :=
  { date := r.date, time := r.time, firm_sender := r.firm_sender,
    expire_date := r.expire_date, option_type := r.option_type,
    strike_px := toNumeric r.strike_px, strike_spd := toNumeric r.strike_spd,
    bid_price := toNumeric r.bid_price, ask_price := toNumeric r.ask_price,
    delta := toNumeric r.delta, iv_spd := toNumeric r.iv_spd,
    iv_bps := toNumeric r.iv_bps, iv_px := toNumeric r.iv_px,
    ref_px := toNumeric r.ref_px }

/-- The price-rescaling block of `transform_data`: every record whose
firm is not `XXX` has bid and ask divided by 100. -/
def rescaleRecord (n : NRecord) : NRecord :=
  if n.firm_sender ≠ "XXX" then
    { n with bid_price := n.bid_price.map (fun q => q / 100),
             ask_price := n.ask_price.map (fun q => q / 100) }
  else n

/-- `transform_data` over the collected records. -/
def transform_data (rs : List Record) : List NRecord :=
  (rs.map coerceRecord).map rescaleRecord

/-! ## Concrete example lines (from the source's own comments) -/

/-- The well-formed example row documented above `ParserForXXX.__rx_dict`. -/
def xxxExampleRow : String :=
  "110.5 266.8 | 2.650/2.800  -99.9      --/--     30.2    1.6      6.2    99.9  |"

/-- The well-formed example row documented above `ParserForYYY.__rx_dict`. -/
def yyyExampleRow : String :=
  "109.5 [287] |155.5 170.5 95% |  0.0 9.6    5% |  4.5% [ 32%]    -1.3%  6.05"

/-- The well-formed example row documented above `ParserForZZZ.__rx_dict`. -/
def zzzExampleRow : String :=
  "    108 |   52 /  70   55 |   40 /  58  -45 |  41.7   +1.5 |    6.1 "

/-- The well-formed example row documented above `ParserForWWW.__rx_dict`. -/
def wwwExampleRow : String :=
  "  111 |  0.0/10.0   0%   32  0.4 5.3|  109 | 114.1/130.1  86%   37 -0.1  6.8"

/-- A WWW row whose call-strike token is the `-` placeholder (no call
strike on that side). -/
def wwwDashRow : String :=
  "   -  |   -   -   -  -  -/-|  109 | 114.1/130.1  86   37 -0.1  6.8"

/-- The XXX table-header example line from the source comments. -/
def xxxTableHeaderLine : String :=
  "Stk   Sprd  |     Pay      Delta       Rec      Vol   Vol Chg  Vol Bpd  Tail  |"

/-- The column-index map a strategy's `on_table_header` builds from a
match of its own `table_header` pattern (`groupdict` order is group
definition order). -/
def boundColIdx (s : Sender) : ColIdx :=
  match (rx_dict s).find? (fun kv => kv.1 == "table_header") with
  | some kv => on_table_header kv.2.groupNames
  | none => []

/-- A header line with an unknown sender token. -/
def unknownSenderHeaderLine : String := "From: QQQ At: 12/15/21 09:00:00 EST-05:00"

/-- A six-line XXX message whose expiry changes between the two data
rows. -/
def xxxTwoExpiryFile : List String :=
  ["From: XXX At: 12/15/21 09:00:00 EST-05:00",
   "Subject: HY37 5y SWAPTION UPDATE - Ref 108 (320.43)",
   "Expiry 15Dec21 (107.78 323.85)",
   xxxTableHeaderLine,
   xxxExampleRow,
   "Expiry 16Dec21 (107.78 323.85)",
   xxxExampleRow]

/-- A bound XXX session with the column map built and no rows yet, used
at concrete inputs below. -/
def xxxBoundState (flag : Bool) : PState :=
  { strategy := some .XXX, matched_table_header := flag,
    col_idx := boundColIdx .XXX,
    pq := mkSessionPQ "15-Dec-21" "09:00:00" "XXX" "15-Dec-21" "108",
    rows := [] }

/-- Per-file invariant of the parse loop: before a strategy is bound no
row was ever collected, and every collected row snapshots the template's
header-level date, time and sender. -/
def PInv (st : PState) : Prop :=
  (st.strategy = none → st.rows = []) ∧
  (∀ rec ∈ st.rows, rec.date = st.pq.date ∧ rec.time = st.pq.time ∧
     rec.firm_sender = st.pq.firm_sender)

/-- A collected record of the no-rescale sender, bid price 2.65. -/
def sampleRecXXX : Record :=
  ⟨"15-Dec-21", "09:00:00", "XXX", "15-Dec-21", "P", "110.5", "266.8",
   "2.65", "2.800", "99.9", "30.2", "6.2", "", "108"⟩

/-- A collected record of another sender, bid price 155.5. -/
def sampleRecYYY : Record :=
  ⟨"15-Dec-21", "09:00:00", "YYY", "15-Dec-21", "P", "109.5", "287",
   "155.5", "170.5", "95", "32", "6.05", "", "108.125"⟩

/-! ## Helper lemmas -/

/-- The key returned by `parse_line` is one of the dict's keys. -/
theorem parse_line_key_mem {d : List (String × Pattern)} {line k : String} {caps : Caps}
    (h : parse_line d line = some (k, caps)) : k ∈ d.map Prod.fst := by
  induction d with
  | nil => simp [parse_line] at h
  | cons p rest ih =>
    rw [parse_line, List.findSome?_cons] at h
    cases hp : (p.2.search line).map (fun m => (p.1, m)) with
    | some v =>
      rw [hp] at h
      cases h
      cases hq : p.2.search line with
      | none => rw [hq] at hp; simp at hp
      | some m =>
        rw [hq] at hp
        simp at hp
        simp [← hp.1]
    | none =>
      rw [hp] at h
      exact List.mem_cons_of_mem _ (ih h)

/-- When no pattern of the dict matches, `parse_line` returns `none`. -/
theorem parse_line_eq_none {d : List (String × Pattern)} {line : String}
    (h : ∀ p ∈ d, p.2.search line = none) : parse_line d line = none := by
  induction d with
  | nil => rfl
  | cons p rest ih =>
    rw [parse_line, List.findSome?_cons, h p (List.mem_cons_self p rest)]
    exact ih (fun q hq => h q (List.mem_cons_of_mem p hq))

/-- First-in-order wins: when every earlier pattern fails and the
pattern keyed `k` matches, `parse_line` returns `k`'s match. -/
theorem parse_line_first {pre post : List (String × Pattern)} {k line : String}
    {rx : Pattern} {caps : Caps}
    (hpre : ∀ p ∈ pre, p.2.search line = none)
    (hk : rx.search line = some caps) :
    parse_line (pre ++ (k, rx) :: post) line = some (k, caps) := by
  induction pre with
  | nil => simp [parse_line, List.findSome?_cons, hk]
  | cons p rest ih =>
    rw [List.cons_append, parse_line, List.findSome?_cons,
        hpre p (List.mem_cons_self p rest)]
    exact ih (fun q hq => hpre q (List.mem_cons_of_mem p hq))

/-- A line matching nothing leaves the state untouched. -/
theorem step_of_no_match {st : PState} {line : String}
    (h : parse_line (activeDict st) line = none) : step st line = .cont st := by
  rw [step, h]

/-- `stop` is only produced with the state unchanged (the `break` for an
unknown sender). -/
theorem step_stop_eq {st st' : PState} {line : String}
    (h : step st line = .stop st') : st' = st := by
  rw [step] at h
  repeat' split at h
  all_goals cases h
  rfl

/-- A successful `get_values` snapshots the template's header-level
fields. -/
theorem get_values_spec {pq : ProductQuote} {rec : Record}
    (h : pq.get_values = .ok rec) :
    rec.date = pq.date ∧ rec.time = pq.time ∧ rec.firm_sender = pq.firm_sender ∧
    pq.expire_date = some rec.expire_date ∧ pq.ref_px = some rec.ref_px := by
  rw [ProductQuote.get_values] at h
  split at h
  · cases h
    refine ⟨rfl, rfl, rfl, ?_, ?_⟩ <;> assumption
  · cases h

/-- A successful `on_subject` only stores `ref_px`. -/
theorem on_subject_header_const {caps : Caps} {pq pq' : ProductQuote}
    (h : on_subject caps pq = .ok pq') :
    pq'.date = pq.date ∧ pq'.time = pq.time ∧ pq'.firm_sender = pq.firm_sender := by
  simp only [on_subject, Bind.bind, Except.bind] at h
  split at h
  · cases h
  · cases h; exact ⟨rfl, rfl, rfl⟩

/-- A successful `on_expiry` never touches date, time or sender. -/
theorem on_expiry_header_const {s : Sender} {caps : Caps} {pq pq' : ProductQuote}
    (h : on_expiry s caps pq = .ok pq') :
    pq'.date = pq.date ∧ pq'.time = pq.time ∧ pq'.firm_sender = pq.firm_sender := by
  simp only [on_expiry, Bind.bind, Except.bind] at h
  repeat' split at h
  all_goals cases h
  all_goals exact ⟨rfl, rfl, rfl⟩

/-- `ParserForXXX.on_table_row` never touches the header-level fields and
every emitted record snapshots them. -/
theorem xxx_row_spec {ci : ColIdx} {pq : ProductQuote} {line : String}
    {out : List Record} {pq' : ProductQuote}
    (h : ParserForXXX.on_table_row ci pq line = .ok (out, pq')) :
    pq'.date = pq.date ∧ pq'.time = pq.time ∧ pq'.firm_sender = pq.firm_sender ∧
    pq'.expire_date = pq.expire_date ∧ pq'.ref_px = pq.ref_px ∧
    ∀ rec ∈ out, rec.date = pq.date ∧ rec.time = pq.time ∧
      rec.firm_sender = pq.firm_sender ∧ pq.expire_date = some rec.expire_date ∧
      pq.ref_px = some rec.ref_px := by
  simp only [ParserForXXX.on_table_row, Bind.bind, Except.bind] at h
  repeat' split at h
  all_goals cases h
  rename_i x3 r1 hr1 x2 cTok hcTok x1 cb hcb x0 r2 hr2
  refine ⟨rfl, rfl, rfl, rfl, rfl, ?_⟩
  intro rec hrec
  rcases List.mem_pair.mp hrec with rfl | rfl
  · have hs := get_values_spec hr1
    exact hs
  · have hs := get_values_spec hr2
    exact hs

/-- `ParserForYYY.on_table_row` never touches the header-level fields and
every emitted record snapshots them. -/
theorem yyy_row_spec {ci : ColIdx} {pq : ProductQuote} {line : String}
    {out : List Record} {pq' : ProductQuote}
    (h : ParserForYYY.on_table_row ci pq line = .ok (out, pq')) :
    pq'.date = pq.date ∧ pq'.time = pq.time ∧ pq'.firm_sender = pq.firm_sender ∧
    pq'.expire_date = pq.expire_date ∧ pq'.ref_px = pq.ref_px ∧
    ∀ rec ∈ out, rec.date = pq.date ∧ rec.time = pq.time ∧
      rec.firm_sender = pq.firm_sender ∧ pq.expire_date = some rec.expire_date ∧
      pq.ref_px = some rec.ref_px := by
  simp only [ParserForYYY.on_table_row, Bind.bind, Except.bind] at h
  repeat' split at h
  all_goals cases h
  rename_i x4 r1 hr1 x3 b3 c3 x2 b2 c2 x1 b1 c1 x0 r2 hr2
  refine ⟨rfl, rfl, rfl, rfl, rfl, ?_⟩
  intro rec hrec
  rcases List.mem_pair.mp hrec with rfl | rfl
  · have hs := get_values_spec hr1
    exact hs
  · have hs := get_values_spec hr2
    exact hs

/-- `ParserForZZZ.on_table_row` never touches the header-level fields and
every emitted record snapshots them. -/
theorem zzz_row_spec {ci : ColIdx} {pq : ProductQuote} {line : String}
    {out : List Record} {pq' : ProductQuote}
    (h : ParserForZZZ.on_table_row ci pq line = .ok (out, pq')) :
    pq'.date = pq.date ∧ pq'.time = pq.time ∧ pq'.firm_sender = pq.firm_sender ∧
    pq'.expire_date = pq.expire_date ∧ pq'.ref_px = pq.ref_px ∧
    ∀ rec ∈ out, rec.date = pq.date ∧ rec.time = pq.time ∧
      rec.firm_sender = pq.firm_sender ∧ pq.expire_date = some rec.expire_date ∧
      pq.ref_px = some rec.ref_px := by
  simp only [ParserForZZZ.on_table_row, Bind.bind, Except.bind] at h
  repeat' split at h
  all_goals cases h
  rename_i x4 r1 hr1 x3 b3 c3 x2 b2 c2 x1 b1 c1 x0 r2 hr2
  refine ⟨rfl, rfl, rfl, rfl, rfl, ?_⟩
  intro rec hrec
  rcases List.mem_pair.mp hrec with rfl | rfl
  · have hs := get_values_spec hr1
    exact hs
  · have hs := get_values_spec hr2
    exact hs

/-- `ParserForWWW.on_table_row` never touches the header-level fields and
every emitted record (including an all-absent call leg) snapshots them. -/
theorem www_row_spec {ci : ColIdx} {pq : ProductQuote} {line : String}
    {out : List Record} {pq' : ProductQuote}
    (h : ParserForWWW.on_table_row ci pq line = .ok (out, pq')) :
    pq'.date = pq.date ∧ pq'.time = pq.time ∧ pq'.firm_sender = pq.firm_sender ∧
    pq'.expire_date = pq.expire_date ∧ pq'.ref_px = pq.ref_px ∧
    ∀ rec ∈ out, rec.date = pq.date ∧ rec.time = pq.time ∧
      rec.firm_sender = pq.firm_sender ∧ pq.expire_date = some rec.expire_date ∧
      pq.ref_px = some rec.ref_px := by
  simp only [ParserForWWW.on_table_row, Bind.bind, Except.bind] at h
  repeat' split at h
  all_goals cases h
  case _ =>
    rename_i x6 r1 hr1 q1 q2 q3 q4 q5 q6 q7 q8 q9 q10 q11 q12 q13 q14 q15 q16 q17 q18 q19 x0 r2 hr2
    refine ⟨rfl, rfl, rfl, rfl, rfl, ?_⟩
    intro rec hrec
    rcases List.mem_pair.mp hrec with rfl | rfl
    · have hs := get_values_spec hr1
      exact hs
    · have hs := get_values_spec hr2
      exact hs
  case _ =>
    rename_i x2 r1 hr1 x1 b1 c1 hcond x0 r2 hr2
    refine ⟨rfl, rfl, rfl, rfl, rfl, ?_⟩
    intro rec hrec
    rcases List.mem_pair.mp hrec with rfl | rfl
    · have hs := get_values_spec hr1
      exact hs
    · have hs := get_values_spec hr2
      exact hs

/-- The dispatched `on_table_row` never touches the header-level fields
and every emitted record snapshots them. -/
theorem on_table_row_spec {s : Sender} {ci : ColIdx} {pq : ProductQuote}
    {line : String} {out : List Record} {pq' : ProductQuote}
    (h : on_table_row s ci pq line = .ok (out, pq')) :
    pq'.date = pq.date ∧ pq'.time = pq.time ∧ pq'.firm_sender = pq.firm_sender ∧
    pq'.expire_date = pq.expire_date ∧ pq'.ref_px = pq.ref_px ∧
    ∀ rec ∈ out, rec.date = pq.date ∧ rec.time = pq.time ∧
      rec.firm_sender = pq.firm_sender ∧ pq.expire_date = some rec.expire_date ∧
      pq.ref_px = some rec.ref_px := by
  cases s
  · exact xxx_row_spec h
  · exact yyy_row_spec h
  · exact zzz_row_spec h
  · exact www_row_spec h

/-- In a bound session the active dict is the strategy's dict, whose
keys never include `header`. -/
theorem no_header_key_when_bound {st : PState} {s : Sender} {line : String}
    {caps : Caps} (hs : st.strategy = some s)
    (hp : parse_line (activeDict st) line = some ("header", caps)) : False := by
  have hmem := parse_line_key_mem hp
  rw [activeDict, hs] at hmem
  cases s <;> simp [rx_dict] at hmem

/-- One loop iteration preserves the per-file invariant. -/
theorem step_inv {st st' : PState} {line : String} (hInv : PInv st)
    (h : step st line = .cont st') : PInv st' := by
  obtain ⟨hseek, hconst⟩ := hInv
  cases hp : parse_line (activeDict st) line with
  | none =>
    rw [step, hp] at h
    cases h
    exact ⟨hseek, hconst⟩
  | some kv =>
    obtain ⟨key, caps⟩ := kv
    rw [step] at h
    simp only [hp] at h
    by_cases hk1 : key = "header"
    · subst hk1
      have hrows : st.rows = [] := by
        cases hs : st.strategy with
        | none => exact hseek hs
        | some s0 => exact absurd (no_header_key_when_bound hs hp) (fun hf => hf)
      rw [if_pos rfl] at h
      cases hg : capsGet caps "firm_sender" with
      | error e => simp only [hg] at h; cases h
      | ok tok =>
        simp only [hg] at h
        cases hpf : parserFor tok with
        | none => simp only [hpf] at h; cases h
        | some s =>
          simp only [hpf] at h
          cases hh : on_header caps with
          | error e => simp only [hh] at h; cases h
          | ok pqn =>
            simp only [hh] at h
            cases h
            refine ⟨fun _ => hrows, ?_⟩
            intro rec hrec
            rw [hrows] at hrec
            cases hrec
    · rw [if_neg hk1] at h
      by_cases hk2 : key = "subject"
      · subst hk2
        rw [if_pos rfl] at h
        cases hs : st.strategy with
        | none => simp only [hs] at h; cases h
        | some s =>
          simp only [hs] at h
          cases hsub : on_subject caps st.pq with
          | error e => simp only [hsub] at h; cases h
          | ok pqn =>
            simp only [hsub] at h
            cases h
            obtain ⟨hd, ht, hf⟩ := on_subject_header_const hsub
            refine ⟨fun hnone => ?_, ?_⟩
            · simp at hnone
            · intro rec hrec
              obtain ⟨h1, h2, h3⟩ := hconst rec hrec
              exact ⟨by rw [h1, hd], by rw [h2, ht], by rw [h3, hf]⟩
      · rw [if_neg hk2] at h
        by_cases hk3 : key = "table_expiry"
        · subst hk3
          rw [if_pos rfl] at h
          cases hs : st.strategy with
          | none => simp only [hs] at h; cases h
          | some s =>
            simp only [hs] at h
            cases hexp : on_expiry s caps st.pq with
            | error e => simp only [hexp] at h; cases h
            | ok pqn =>
              simp only [hexp] at h
              cases h
              obtain ⟨hd, ht, hf⟩ := on_expiry_header_const hexp
              refine ⟨fun hnone => ?_, ?_⟩
              · simp at hnone
              · intro rec hrec
                obtain ⟨h1, h2, h3⟩ := hconst rec hrec
                exact ⟨by rw [h1, hd], by rw [h2, ht], by rw [h3, hf]⟩
        · rw [if_neg hk3] at h
          by_cases hk4 : key = "table_header" ∧ st.matched_table_header = false
          · rw [if_pos hk4] at h
            cases hs : st.strategy with
            | none => simp only [hs] at h; cases h
            | some s =>
              simp only [hs] at h
              cases h
              refine ⟨fun hnone => ?_, hconst⟩
              simp at hnone
          · rw [if_neg hk4] at h
            by_cases hk5 : key = "table_row"
            · subst hk5
              rw [if_pos rfl] at h
              cases hs : st.strategy with
              | none => simp only [hs] at h; cases h
              | some s =>
                simp only [hs] at h
                cases hrow : on_table_row s st.col_idx st.pq line with
                | error e => simp only [hrow] at h; cases h
                | ok pr =>
                  obtain ⟨pair, pqn⟩ := pr
                  simp only [hrow] at h
                  cases h
                  obtain ⟨hd, ht, hf, _, _, hall⟩ := on_table_row_spec hrow
                  refine ⟨fun hnone => ?_, ?_⟩
                  · simp at hnone
                  · intro rec hrec
                    rcases List.mem_append.mp hrec with hold | hnew
                    · obtain ⟨h1, h2, h3⟩ := hconst rec hold
                      exact ⟨by rw [h1, hd], by rw [h2, ht], by rw [h3, hf]⟩
                    · obtain ⟨h1, h2, h3, _, _⟩ := hall rec hnew
                      exact ⟨by rw [h1, hd], by rw [h2, ht], by rw [h3, hf]⟩
            · rw [if_neg hk5] at h
              cases h
              exact ⟨hseek, hconst⟩

/-- The initial state satisfies the per-file invariant. -/
theorem initPState_inv : PInv initPState :=
  ⟨fun _ => rfl, fun rec hrec => absurd hrec (by simp [initPState])⟩

/-- From any invariant state, a successful run of the loop produces
records that all agree on date, time and sender. -/
theorem parseFileFrom_const {lines : List String} {st : PState} {res : List Record}
    (hInv : PInv st) (h : parseFileFrom st lines = .ok res) :
    ∃ dd tt ff, ∀ rec ∈ res, rec.date = dd ∧ rec.time = tt ∧ rec.firm_sender = ff := by
  induction lines generalizing st with
  | nil =>
    rw [parseFileFrom] at h
    cases h
    exact ⟨st.pq.date, st.pq.time, st.pq.firm_sender, hInv.2⟩
  | cons l ls ih =>
    rw [parseFileFrom] at h
    cases hstep : step st l with
    | cont st2 =>
      simp only [hstep] at h
      exact ih (step_inv hInv hstep) h
    | stop st2 =>
      simp only [hstep] at h
      cases h
      obtain rfl := step_stop_eq hstep
      exact ⟨st2.pq.date, st2.pq.time, st2.pq.firm_sender, hInv.2⟩
    | fail e =>
      simp only [hstep] at h
      cases h

/-! ## Claim theorems -/

/-- C1: for each of the four sender grammars, with the column-index map
built by `on_table_header` from that grammar's table-header capture
layout, `on_table_row` on the grammar's well-formed example row returns
exactly two records whose option sides are the distinct pair P then C;
for the WWW grammar, when the call-strike token is the placeholder `-`,
the first record is the fully populated put leg and the second is the
all-absent call leg. -/
theorem C1_row_decodes_to_put_call_pair (d t f e r : String) :
    on_table_row .XXX (boundColIdx .XXX) (mkSessionPQ d t f e r) xxxExampleRow =
      .ok ([⟨d, t, f, e, "P", "110.5", "266.8", "2.650", "2.800", "99.9", "30.2", "6.2", "", r⟩,
            ⟨d, t, f, e, "C", "110.5", "266.8", "", "", "99.9", "30.2", "6.2", "", r⟩],
           mkSessionPQ d t f e r) ∧
    on_table_row .YYY (boundColIdx .YYY) (mkSessionPQ d t f e r) yyyExampleRow =
      .ok ([⟨d, t, f, e, "P", "109.5", "287", "155.5", "170.5", "95", "32", "6.05", "", r⟩,
            ⟨d, t, f, e, "C", "109.5", "287", "0.0", "9.6", "5", "32", "6.05", "", r⟩],
           mkSessionPQ d t f e r) ∧
    on_table_row .ZZZ (boundColIdx .ZZZ) (mkSessionPQ d t f e r) zzzExampleRow =
      .ok ([⟨d, t, f, e, "P", "108", "", "52", "70", "55", "41.7", "", "6.1", r⟩,
            ⟨d, t, f, e, "C", "108", "", "40", "58", "-45", "41.7", "", "6.1", r⟩],
           mkSessionPQ d t f e r) ∧
    on_table_row .WWW (boundColIdx .WWW) (mkSessionPQ d t f e r) wwwExampleRow =
      .ok ([⟨d, t, f, e, "P", "109", "", "114.1", "130.1", "86", "37", "6.8", "", r⟩,
            ⟨d, t, f, e, "C", "111", "", "0.0", "10.0", "0", "32", "5.3", "", r⟩],
           mkSessionPQ d t f e r) ∧
    on_table_row .WWW (boundColIdx .WWW) (mkSessionPQ d t f e r) wwwDashRow =
      .ok ([⟨d, t, f, e, "P", "109", "", "114.1", "130.1", "86", "37", "6.8", "", r⟩,
            ⟨d, t, f, e, "C", "", "", "", "", "", "", "", "", r⟩],
           mkSessionPQ d t f e r) :=
  ⟨rfl, rfl, rfl, rfl, rfl⟩

/-- C7: parsing `15Dec21` under the XXX input format and `15-Dec-2021`
under the YYY input format store the same canonical date string
`15-Dec-21`, for any template state. -/
theorem C7_date_canonicalization_variant_independent (pq1 pq2 : ProductQuote) :
    on_expiry .XXX [("expiration_date", "15Dec21")] pq1 =
      .ok { pq1 with expire_date := some "15-Dec-21" } ∧
    on_expiry .YYY [("expiration_date", "15-Dec-2021")] pq2 =
      .ok { pq2 with expire_date := some "15-Dec-21" } ∧
    (parseWith (exp_date_format .XXX) "15Dec21").map formatDDMonYY =
      (parseWith (exp_date_format .YYY) "15-Dec-2021").map formatDDMonYY :=
  ⟨rfl, rfl, rfl⟩

/-- C10: the XXX strategy strips every `-` (and `|`) from a row line
before tokenizing, so no decoded token ever contains `-`: the delta
token `-99.9` loses its sign and is stored as `99.9`, and the no-quote
placeholder (dash dash, slash, dash dash) decodes to an empty bid and an
empty ask: its translation is the bare `/`, which splits into two empty
strings. -/
theorem C10_xxx_minus_stripped (s d t f e r : String) :
    ((pyTranslate (translate_table .XXX) s).toList.count '-' = 0) ∧
    pyTranslate (translate_table .XXX) "-99.9" = "99.9" ∧
    split2 (pyTranslate (translate_table .XXX) "--/--") = .ok ("", "") ∧
    (on_table_row .XXX (boundColIdx .XXX) (mkSessionPQ d t f e r) xxxExampleRow).map
      (fun pr => pr.1.map (fun rec => (rec.delta, rec.bid_price, rec.ask_price))) =
      .ok [("99.9", "2.650", "2.800"), ("99.9", "", "")] := by
  refine ⟨?_, rfl, rfl, rfl⟩
  show ((s.toList.filterMap (translate_table .XXX)).count '-') = 0
  induction s.toList with
  | nil => rfl
  | cons c cs ih =>
    rw [List.filterMap_cons]
    cases hc : translate_table .XXX c with
    | none => exact ih
    | some c' =>
      simp only [translate_table] at hc
      by_cases hm : c = '|' ∨ c = '-'
      · rw [if_pos hm] at hc; cases hc
      · rw [if_neg hm] at hc
        cases hc
        rw [List.count_cons, ih]
        have hne : ¬ (c = '-') := fun hcc => hm (Or.inr hcc)
        simp [hne]

/-- C4: the rescaling step of `transform_data` divides bid and ask by
100 exactly for the records whose firm is not the no-rescale sender
`XXX`, leaves `XXX` bid/ask untouched, changes no other field, and on
the spec's example values keeps 2.65 and turns 155.5 into 1.555. -/
theorem C4_rescale_non_xxx_only (rs : List Record) (r : Record) :
    transform_data rs = rs.map (fun x => rescaleRecord (coerceRecord x)) ∧
    (r.firm_sender = "XXX" → rescaleRecord (coerceRecord r) = coerceRecord r) ∧
    (r.firm_sender ≠ "XXX" →
      rescaleRecord (coerceRecord r) =
        { coerceRecord r with
            bid_price := (toNumeric r.bid_price).map (fun q => q / 100),
            ask_price := (toNumeric r.ask_price).map (fun q => q / 100) }) ∧
    toNumeric "2.65" = some (2.65 : ℚ) ∧
    (toNumeric "155.5").map (fun q => q / 100) = some (1.555 : ℚ) := by
  refine ⟨?_, ?_, ?_, ?_, ?_⟩
  · rw [transform_data, List.map_map]
    rfl
  · intro h
    rw [rescaleRecord, if_neg]
    simp [coerceRecord, h]
  · intro h
    rw [rescaleRecord, if_pos]
    · rfl
    · simpa [coerceRecord] using h
  · rw [show toNumeric "2.65" = some (mkRat 53 20) from by decide]
    norm_num [Rat.mkRat_eq_div]
  · rw [show toNumeric "155.5" = some (mkRat 311 2) from by decide]
    show some ((mkRat 311 2) / 100) = _
    norm_num [Rat.mkRat_eq_div]

/-- C4 witness: the rescaling at the two concrete sample records. -/
theorem C4_rescale_non_xxx_only_witness :
    rescaleRecord (coerceRecord sampleRecXXX) = coerceRecord sampleRecXXX ∧
    rescaleRecord (coerceRecord sampleRecYYY) =
      { coerceRecord sampleRecYYY with
          bid_price := (toNumeric "155.5").map (fun q => q / 100),
          ask_price := (toNumeric "170.5").map (fun q => q / 100) } :=
  ⟨(C4_rescale_non_xxx_only [] sampleRecXXX).2.1 rfl,
   (C4_rescale_non_xxx_only [] sampleRecYYY).2.2.1 (by decide)⟩

/-- C8: the coercion step of `transform_data` maps exactly the nine
numeric columns through `toNumeric`, leaves the text columns alone, and
`toNumeric` turns every unparsable token (including the empty absent
marker) into the explicit missing marker `none` — never `some 0` and
never an error. -/
theorem C8_coercion_total (r : Record) :
    (coerceRecord r).strike_px = toNumeric r.strike_px ∧
    (coerceRecord r).strike_spd = toNumeric r.strike_spd ∧
    (coerceRecord r).bid_price = toNumeric r.bid_price ∧
    (coerceRecord r).ask_price = toNumeric r.ask_price ∧
    (coerceRecord r).delta = toNumeric r.delta ∧
    (coerceRecord r).ref_px = toNumeric r.ref_px ∧
    (coerceRecord r).iv_spd = toNumeric r.iv_spd ∧
    (coerceRecord r).iv_bps = toNumeric r.iv_bps ∧
    (coerceRecord r).iv_px = toNumeric r.iv_px ∧
    (coerceRecord r).date = r.date ∧
    (coerceRecord r).time = r.time ∧
    (coerceRecord r).firm_sender = r.firm_sender ∧
    (coerceRecord r).expire_date = r.expire_date ∧
    (coerceRecord r).option_type = r.option_type ∧
    toNumeric "" = none ∧
    toNumeric "-" = none ∧
    toNumeric "--/--" = none ∧
    toNumeric "n/a" = none ∧
    toNumeric "5%" = none :=
  ⟨rfl, rfl, rfl, rfl, rfl, rfl, rfl, rfl, rfl, rfl, rfl, rfl, rfl, rfl,
   by decide, by decide, by decide, by decide, by decide⟩

/-- Lines matching no active pattern are skipped without any state
change. -/
theorem parseFileFrom_skip_unmatched (st : PState) (pre rest : List String)
    (hpre : ∀ l ∈ pre, parse_line (activeDict st) l = none) :
    parseFileFrom st (pre ++ rest) = parseFileFrom st rest := by
  induction pre with
  | nil => rfl
  | cons head tail ih =>
    rw [List.cons_append, parseFileFrom]
    have hstep := step_of_no_match (hpre head (List.mem_cons_self _ _))
    simp only [hstep]
    exact ih (fun l hl => hpre l (List.mem_cons_of_mem _ hl))

/-- C2: a file whose first header-matching line carries a sender token
outside the known set makes `parse_file` stop at that line: the
remaining lines are not processed, no exception is raised, and the file
yields zero records. -/
theorem C2_unknown_sender_zero_records (pre post : List String) (line tok : String)
    (caps : Caps)
    (hpre : ∀ l ∈ pre, headerPattern.search l = none)
    (hline : headerPattern.search line = some caps)
    (htok : capsGet caps "firm_sender" = .ok tok)
    (hun : parserFor tok = none) :
    parse_file (pre ++ line :: post) = .ok [] := by
  rw [parse_file, parseFileFrom_skip_unmatched]
  · rw [parseFileFrom]
    have hp : parse_line (activeDict initPState) line = some ("header", caps) := by
      simp [activeDict, initPState, parse_line, header_rx_dict, hline]
    have hstep : step initPState line = .stop initPState := by
      rw [step]
      simp only [hp]
      rw [if_pos trivial]
      simp only [htok, hun]
    simp only [hstep]
    rfl
  · intro l hl
    simp [activeDict, initPState, parse_line, header_rx_dict, hpre l hl]

/-- C2 witness: a three-line file with the unknown sender `QQQ`. -/
theorem C2_unknown_sender_zero_records_witness :
    parse_file ([] ++ unknownSenderHeaderLine :: ["Expiry 15Dec21", xxxExampleRow]) =
      .ok [] :=
  C2_unknown_sender_zero_records [] ["Expiry 15Dec21", xxxExampleRow]
    unknownSenderHeaderLine "QQQ"
    [("firm_sender", "QQQ"), ("date", "12/15/21"), ("time", "09:00:00")]
    (by intro l hl; cases hl) (by decide) rfl rfl

/-- C9: line classification tries the active patterns in dict order and
returns the first match's kind and captures; when every pattern fails
the result is `none` and the loop skips the line with no state change. -/
theorem C9_first_match_wins :
    (∀ (d : List (String × Pattern)) (line : String),
        (∀ p ∈ d, p.2.search line = none) → parse_line d line = none) ∧
    (∀ (pre post : List (String × Pattern)) (k line : String) (rx : Pattern)
        (caps : Caps),
        (∀ p ∈ pre, p.2.search line = none) → rx.search line = some caps →
        parse_line (pre ++ (k, rx) :: post) line = some (k, caps)) ∧
    (∀ (st : PState) (line : String),
        parse_line (activeDict st) line = none → step st line = .cont st) :=
  ⟨fun _ _ h => parse_line_eq_none h,
   fun _ _ _ _ _ _ h1 h2 => parse_line_first h1 h2,
   fun _ _ h => step_of_no_match h⟩

/-- C9 witness: under the XXX dict the example row is classified by the
fourth pattern (`table_row`) because the three earlier patterns fail; a
free-text line matches nothing and is skipped with no state change. -/
theorem C9_first_match_wins_witness :
    parse_line (rx_dict .XXX) "some banner text" = none ∧
    parse_line (rx_dict .XXX) xxxExampleRow = some ("table_row", []) ∧
    step (xxxBoundState true) "some banner text" = .cont (xxxBoundState true) := by
  refine ⟨C9_first_match_wins.1 (rx_dict .XXX) "some banner text" (by decide),
          ?_,
          C9_first_match_wins.2.2 (xxxBoundState true) "some banner text" (by decide)⟩
  exact C9_first_match_wins.2.1
    [("subject", subjectPattern), ("table_expiry", xxxExpiryPattern),
     ("table_header", xxxTableHeaderPattern)]
    [] "table_row" xxxExampleRow xxxTableRowPattern [] (by decide) (by decide)

/-- C6: column-index binding is one-shot per session: once the
table-header-consumed flag is set, a line classified `table_header`
leaves the whole state (in particular the column-index map) unchanged,
whatever capture layout it carries; the first such line builds the map
from its captures and sets the flag. -/
theorem C6_column_binding_one_shot :
    (∀ (st : PState) (line : String) (s : Sender) (caps : Caps),
        st.strategy = some s → st.matched_table_header = true →
        parse_line (activeDict st) line = some ("table_header", caps) →
        step st line = .cont st) ∧
    (∀ (st : PState) (line : String) (s : Sender) (caps : Caps),
        st.strategy = some s → st.matched_table_header = false →
        parse_line (activeDict st) line = some ("table_header", caps) →
        step st line = .cont { st with
          col_idx := on_table_header (caps.map Prod.fst),
          matched_table_header := true }) := by
  constructor
  · intro st line s caps hs hflag hp
    rw [step]
    simp only [hp]
    rw [if_neg (by decide), if_neg (by decide), if_neg (by decide),
        if_neg (fun hand => by rw [hflag] at hand; exact absurd hand.2 (by decide)),
        if_neg (by decide)]
  · intro st line s caps hs hflag hp
    rw [step]
    simp only [hp]
    rw [if_neg (by decide), if_neg (by decide), if_neg (by decide),
        if_pos ⟨trivial, hflag⟩]
    simp only [hs]

/-- C6 witness: the XXX session with the flag already set ignores the
XXX table-header line; with the flag clear it builds the column map from
the line's captures. -/
theorem C6_column_binding_one_shot_witness :
    step (xxxBoundState true) xxxTableHeaderLine = .cont (xxxBoundState true) ∧
    step (xxxBoundState false) xxxTableHeaderLine = .cont { xxxBoundState false with
      col_idx := on_table_header
        ["strike_px", "strike_spd", "p_price", "delta", "c_price",
         "iv_spd", "vol_chg", "iv_bps", "tail"],
      matched_table_header := true } := by
  constructor
  · exact C6_column_binding_one_shot.1 (xxxBoundState true) xxxTableHeaderLine .XXX
      [("strike_px", "Stk"), ("strike_spd", "Sprd"), ("p_price", "Pay"),
       ("delta", "Delta"), ("c_price", "Rec"), ("iv_spd", "Vol"),
       ("vol_chg", "Vol Chg"), ("iv_bps", "Vol Bpd"), ("tail", "Tail")]
      rfl rfl (by decide)
  · exact C6_column_binding_one_shot.2 (xxxBoundState false) xxxTableHeaderLine .XXX
      [("strike_px", "Stk"), ("strike_spd", "Sprd"), ("p_price", "Pay"),
       ("delta", "Delta"), ("c_price", "Rec"), ("iv_spd", "Vol"),
       ("vol_chg", "Vol Chg"), ("iv_bps", "Vol Bpd"), ("tail", "Tail")]
      rfl rfl (by decide)

/-- C3: a line classified `table_row` whose decode fails (a
column-index lookup out of range or a bid/ask token that does not split
in two) makes the whole file's parse fail with the propagated error: the
returned value is `Except.error`, so no record from that line (and no
record at all) is delivered, and the line is not skipped. -/
theorem C3_malformed_row_fatal (st : PState) (line : String) (rest : List String)
    (s : Sender) (caps : Caps) (e : String)
    (hs : st.strategy = some s)
    (hcls : parse_line (activeDict st) line = some ("table_row", caps))
    (herr : on_table_row s st.col_idx st.pq line = .error e) :
    parseFileFrom st (line :: rest) = .error e := by
  rw [parseFileFrom]
  have hstep : step st line = .fail e := by
    rw [step]
    simp only [hcls]
    rw [if_neg (by decide), if_neg (by decide), if_neg (by decide),
        if_neg (fun hand => absurd hand.1 (by decide)), if_pos trivial]
    simp only [hs, herr]
  simp only [hstep]

/-- C3 witness: a bound XXX session on a truncated row (two tokens):
the delta lookup is out of range, so the parse of the remaining file is
the propagated error. -/
theorem C3_malformed_row_fatal_witness :
    parseFileFrom (xxxBoundState true) ["110.5 266.8", xxxExampleRow] =
      .error "IndexError: list index out of range" :=
  C3_malformed_row_fatal (xxxBoundState true) "110.5 266.8" [xxxExampleRow]
    .XXX [] "IndexError: list index out of range" rfl (by decide) rfl

/-- C5 (amended): every successful `parse_file` run yields records that
all carry identical date, time and sender (these are bound once by the
single header dispatch); expiration and reference price are never
changed by row processing and each emitted record snapshots the
template's current values — but a later expiry or subject line can
change them for subsequent rows, so they agree across the whole file
only when no such line occurs between table rows. -/
theorem C5_header_level_fields_constant :
    (∀ (lines : List String) (res : List Record),
        parse_file lines = .ok res →
        ∃ dd tt ff, ∀ rec ∈ res,
          rec.date = dd ∧ rec.time = tt ∧ rec.firm_sender = ff) ∧
    (∀ (s : Sender) (ci : ColIdx) (pq pq' : ProductQuote) (line : String)
        (out : List Record),
        on_table_row s ci pq line = .ok (out, pq') →
        pq'.expire_date = pq.expire_date ∧ pq'.ref_px = pq.ref_px ∧
        ∀ rec ∈ out, pq.expire_date = some rec.expire_date ∧
          pq.ref_px = some rec.ref_px) := by
  constructor
  · intro lines res h
    exact parseFileFrom_const initPState_inv h
  · intro s ci pq pq' line out h
    obtain ⟨_, _, _, he, hr, hall⟩ := on_table_row_spec h
    exact ⟨he, hr, fun rec hrec =>
      ⟨(hall rec hrec).2.2.2.1, (hall rec hrec).2.2.2.2⟩⟩

/-- C5 counterexample: a single XXX file with a second expiry line
between its two data rows yields records whose expiration values
differ, refuting the claim that all records of a file share the same
expiration. -/
theorem C5_counterexample_two_expiry_lines :
    (parse_file xxxTwoExpiryFile).map (fun rs => rs.map Record.expire_date) =
      .ok ["15-Dec-21", "15-Dec-21", "16-Dec-21", "16-Dec-21"] ∧
    ("15-Dec-21" : String) ≠ "16-Dec-21" :=
  ⟨rfl, by decide⟩

/-- C5 witness: the constancy statements applied at the five-line
prefix of the concrete XXX file (two records) and at the XXX example
row decode. -/
theorem C5_header_level_fields_constant_witness :
    (∃ dd tt ff, ∀ rec ∈
        [(⟨"15-Dec-21", "09:00:00", "XXX", "15-Dec-21", "P", "110.5", "266.8",
           "2.650", "2.800", "99.9", "30.2", "6.2", "", "108"⟩ : Record),
         ⟨"15-Dec-21", "09:00:00", "XXX", "15-Dec-21", "C", "110.5", "266.8",
          "", "", "99.9", "30.2", "6.2", "", "108"⟩],
        rec.date = dd ∧ rec.time = tt ∧ rec.firm_sender = ff) ∧
    ((mkSessionPQ "15-Dec-21" "09:00:00" "XXX" "15-Dec-21" "108").expire_date =
        (mkSessionPQ "15-Dec-21" "09:00:00" "XXX" "15-Dec-21" "108").expire_date ∧
      (mkSessionPQ "15-Dec-21" "09:00:00" "XXX" "15-Dec-21" "108").ref_px =
        (mkSessionPQ "15-Dec-21" "09:00:00" "XXX" "15-Dec-21" "108").ref_px ∧
      ∀ rec ∈
        [(⟨"15-Dec-21", "09:00:00", "XXX", "15-Dec-21", "P", "110.5", "266.8",
           "2.650", "2.800", "99.9", "30.2", "6.2", "", "108"⟩ : Record),
         ⟨"15-Dec-21", "09:00:00", "XXX", "15-Dec-21", "C", "110.5", "266.8",
          "", "", "99.9", "30.2", "6.2", "", "108"⟩],
        (mkSessionPQ "15-Dec-21" "09:00:00" "XXX" "15-Dec-21" "108").expire_date =
          some rec.expire_date ∧
        (mkSessionPQ "15-Dec-21" "09:00:00" "XXX" "15-Dec-21" "108").ref_px =
          some rec.ref_px) :=
  ⟨C5_header_level_fields_constant.1 (xxxTwoExpiryFile.take 5) _ rfl,
   C5_header_level_fields_constant.2 .XXX (boundColIdx .XXX)
     (mkSessionPQ "15-Dec-21" "09:00:00" "XXX" "15-Dec-21" "108")
     (mkSessionPQ "15-Dec-21" "09:00:00" "XXX" "15-Dec-21" "108")
     xxxExampleRow _ rfl⟩
